import Mathlib

/-!
Verification of the recipe-substitution core: ingredient canonicalization
(src/ingredient_canonicalizer.py), the restriction knowledge base
(src/restriction_knowledge.py), the unified lookup layer
(src/unified_substitution_system.py), unit conversion (src/unit_converter.py),
multi-diet reconciliation (src/composite_diet_engine.py) and the unit-aware
orchestrator (src/unit_aware_substitution.py), shallowly embedded from the
Python sources.

Modelling conventions:
- Python str values are Lean String; character-level operations work on
  String.data (List Char).  All table data is ASCII, where Python str.lower
  agrees with Char.toLower.
- Python float is modelled as exact rational arithmetic (Rat).  Comments mark
  the spots where IEEE semantics could differ and why they do not for the
  data in the tables.
- Python dicts are association lists in insertion order; overwriting an
  existing key keeps its position (Python 3.7+ semantics).
- Python sets appear only where the code iterates them in an unspecified
  (hash-dependent) order; the model fixes the insertion order of the
  underlying keys and the spot is marked with a comment.
- Exceptions (the single ValueError raise) are modelled with Except.
-/

/-- Whitespace characters recognized by the Python regex class backslash-s and
by str.strip and str.split (ASCII fragment; the table data is ASCII). -/
def isPyWS (c : Char) : Bool :=
  c == ' ' || c == '\t' || c == '\n' || c == '\r' || c == '\x0b' || c == '\x0c'

/-- Python str.lower, per character (ASCII agrees with Char.toLower). -/
def pyLower (l : List Char) : List Char := l.map Char.toLower

/-- Python str.strip(): drop leading and trailing whitespace. -/
def pyStrip (l : List Char) : List Char :=
  ((l.dropWhile isPyWS).reverse.dropWhile isPyWS).reverse

/-- Merge adjacent space characters into one (helper for collapseWS). -/
def squeezeWS : List Char → List Char
  | [] => []
  | [c] => [c]
  | c :: d :: rest =>
    if c == ' ' && d == ' ' then squeezeWS (d :: rest)
    else c :: squeezeWS (d :: rest)

/-- Python re.sub of one-or-more whitespace by a single space: every maximal
whitespace run becomes one space character.  Every whitespace character is
first mapped to a space, then adjacent spaces are merged. -/
def collapseWS (l : List Char) : List Char :=
  squeezeWS (l.map (fun c => if isPyWS c then ' ' else c))

/-- Python substring containment, sub in s. -/
def isSubList (sub : List Char) : List Char → Bool
  | [] => sub.isEmpty
  | c :: rest => sub.isPrefixOf (c :: rest) || isSubList sub rest

/-- Python str.split() with no argument: split on whitespace runs, no empty
tokens.  Structured as a right fold: a non-whitespace character either starts
a fresh token (end of string or whitespace next) or extends the first token
of the split of the tail. -/
def pySplit : List Char → List (List Char)
  | [] => []
  | c :: rest =>
    let ts := pySplit rest
    if isPyWS c then ts
    else
      match rest with
      | [] => [[c]]
      | d :: _ =>
        if isPyWS d then [c] :: ts
        else
          match ts with
          | [] => [[c]]
          | t :: ts2 => (c :: t) :: ts2

/-- String-level wrappers used by the lookup keys. -/
def pyLowerStr (s : String) : String := String.mk (pyLower s.data)

/-- Python s.lower().strip() as used to build knowledge-base keys. -/
def pyLowerStrip (s : String) : String := String.mk (pyStrip (pyLower s.data))

-- ### Canonicalizer (src/ingredient_canonicalizer.py)

/-- The alias groups of IngredientCanonicalizer._build_alias_database, in
source order: (canonical name, alias list). -/
def aliasGroups : List (String × List String) :=
  [("flour", ["ap flour", "white flour", "plain flour", "all-purpose flour", "wheat flour"]),
   ("almond flour", ["almond meal", "ground almonds", "blanched almond flour"]),
   ("coconut flour", ["coco flour", "coconut meal"]),
   ("granulated sugar", ["white sugar", "table sugar", "regular sugar", "sugar", "cane sugar"]),
   ("brown sugar", ["light brown sugar", "dark brown sugar", "muscovado sugar"]),
   ("powdered sugar", ["confectioners sugar", "icing sugar", "10x sugar"]),
   ("milk", ["whole milk", "cow milk", "dairy milk", "regular milk"]),
   ("butter", ["sweet butter", "unsalted butter", "salted butter", "dairy butter"]),
   ("cheese", ["cheddar cheese", "cheese", "dairy cheese"]),
   ("eggs", ["egg", "chicken eggs", "large eggs", "whole eggs"]),
   ("onion", ["yellow onion", "white onion", "spanish onion", "cooking onion"]),
   ("garlic", ["garlic cloves", "fresh garlic", "garlic bulb"]),
   ("olive oil", ["extra virgin olive oil", "evoo", "virgin olive oil"]),
   ("vegetable oil", ["canola oil", "cooking oil", "neutral oil"]),
   ("salt", ["table salt", "kosher salt", "sea salt", "fine salt"]),
   ("black pepper", ["pepper", "ground pepper", "freshly ground pepper"]),
   ("black beans", ["black turtle beans", "dried black beans"]),
   ("chickpeas", ["garbanzo beans", "ceci beans"]),
   ("lentils", ["brown lentils", "green lentils", "red lentils"]),
   ("white bread", ["sandwich bread", "sliced bread", "wheat bread"]),
   ("apples", ["apple", "granny smith apples", "red apples"]),
   ("bananas", ["banana", "ripe bananas", "yellow bananas"]),
   ("honey", ["raw honey", "wildflower honey", "clover honey"]),
   ("soy sauce", ["shoyu", "light soy sauce", "dark soy sauce"]),
   ("tofu", ["bean curd", "silken tofu", "firm tofu", "extra firm tofu"])]

/-- The self.aliases dict as an association list (key, canonical name) in
insertion order: each group inserts its canonical name, then each alias.
The only repeated key is "cheese" (alias of its own group, mapping to the
same value), which a Python dict stores once; keeping the shadowed second
occurrence in the list is observationally identical for lookup and for
in-order scanning. -/
def aliasTable : List (String × String) :=
  aliasGroups.flatMap (fun g => (g.fst, g.fst) :: g.snd.map (fun a => (a, g.fst)))

/-- The canonical ingredient names (self.canonical_names). -/
def canonicalNames : List String := aliasGroups.map (·.fst)

/-- The freshness qualifiers removed by _normalize_basic. -/
def freshnessQuals : List (List Char) :=
  [['f','r','e','s','h'], ['d','r','i','e','d'], ['f','r','o','z','e','n'],
   ['c','a','n','n','e','d'], ['o','r','g','a','n','i','c']]

/-- The anchored prefix regex of _normalize_basic: if the string starts with a
qualifier followed by at least one whitespace character, drop the qualifier
and the (greedy, hence maximal) whitespace run.  The five alternatives are
pairwise non-prefixes of each other, so at most one can match. -/
def stripQualPrefix (l : List Char) : List Char :=
  match freshnessQuals.find?
      (fun q => q.isPrefixOf l && ((l.drop q.length).head?.any isPyWS)) with
  | some q => (l.drop q.length).dropWhile isPyWS
  | none => l

/-- The anchored suffix regex of _normalize_basic, mirrored on the reversed
string: if the string ends with whitespace followed by a qualifier, drop the
qualifier and the maximal whitespace run before it. -/
def stripQualSuffix (l : List Char) : List Char :=
  let r := l.reverse
  match freshnessQuals.find?
      (fun q => q.reverse.isPrefixOf r && ((r.drop q.length).head?.any isPyWS)) with
  | some q => ((r.drop q.length).dropWhile isPyWS).reverse
  | none => l

/-- IngredientCanonicalizer._normalize_basic: lowercase; collapse whitespace
and strip; return "" when only whitespace; delete the characters comma,
semicolon, period; strip a leading and a trailing freshness qualifier. -/
def normalizeBasic (l : List Char) : List Char :=
  let n := pyStrip (collapseWS (pyLower l))
  if n.isEmpty then [] else
  let n2 := n.filter (fun c => !(c == ',' || c == ';' || c == '.'))
  stripQualSuffix (stripQualPrefix n2)

/-- IngredientCanonicalizer._is_fuzzy_match: substring containment either
direction, or a 70 percent overlap of the whitespace-split word sets.
Python compares the intersection size against min * 0.7 in IEEE doubles;
every alias key has at most 4 distinct words, so min is at most 4 and the
double comparison coincides with the exact test 7 * min <= 10 * inter
(thresholds 0.7, 1.4, 2.0999999999999996, 2.8 all have the same integer
ceiling as 0.7 * m). -/
def isFuzzyMatch (n a : List Char) : Bool :=
  isSubList a n || isSubList n a ||
  (let nw := (pySplit n).dedup
   let aw := (pySplit a).dedup
   let inter := (nw.filter (fun w => aw.contains w)).length
   7 * Nat.min nw.length aw.length ≤ 10 * inter)

/-- IngredientCanonicalizer._lookup_canonical: direct dict hit, else first
fuzzy match in dict insertion order, else the normalized string itself. -/
def lookupCanonical (n : List Char) : List Char :=
  if n.isEmpty then [] else
  match aliasTable.find? (fun e => e.fst.data == n) with
  | some e => e.snd.data
  | none =>
    match aliasTable.find? (fun e => isFuzzyMatch n e.fst.data) with
    | some e => e.snd.data
    | none => n

/-- IngredientCanonicalizer.canonicalize. -/
def canonicalize (s : String) : String :=
  if s.isEmpty then "" else String.mk (lookupCanonical (normalizeBasic s.data))

-- ### Knowledge base (src/restriction_knowledge.py)

/-- SubstitutionOption of restriction_knowledge.py.  The free-text culinary
notes field is omitted: no modelled operation reads it (it is only copied
into result records that no claim inspects).  Confidence is the dataclass
default 1.0 for every option in the table. -/
structure SubstitutionOption where
  name : String
  ratioText : String
  unitConvText : String
  confidence : Rat
deriving Repr, DecidableEq

/-- IngredientRestrictions of restriction_knowledge.py, together with the
dict key under which load_from_table stores it ("<ingredient>_<diet>" for
the eight non-low-fodmap sections, the bare ingredient name for the
low-fodmap section and for the keto "granulated sugar" entry, which are
added without the composite-key rewrite). -/
structure RestrictionEntry where
  key : String
  originalIngredient : String
  dietType : String
  substitutionOptions : List SubstitutionOption
  forbiddenTags : List String
deriving Repr, DecidableEq
def restrictionTable : List RestrictionEntry :=
  [
   ⟨"onion", "onion", "low-fodmap",
     [⟨"green onion tops (scallion)", "1 small onion ‚âà 1 cup chopped scallion green parts", "1 cup scallion greens ‚âà 50g", 1⟩,
      ⟨"chives", "Use liberally as garnish or stir in at end", "1 Tbsp chopped ‚âà 3g", 1⟩,
      ⟨"leek greens", "Use similar volume as onion (up to 2/3 cup)", "1 cup chopped ‚âà 60g", 1⟩,
      ⟨"asafoetida (hing)", "1/8 teaspoon or pinch for whole dish", "1 pinch ‚âà 0.5g", 1⟩],
     ["fructans", "high-fodmap"]⟩,
   ⟨"garlic", "garlic", "low-fodmap",
     [⟨"garlic-infused oil", "1 clove garlic = 1 Tbsp garlic-infused oil", "1 Tbsp = 15ml", 1⟩,
      ⟨"garlic chives", "1-2 Tbsp chopped for garlic flavor", "1 Tbsp chopped ‚âà 3g", 1⟩,
      ⟨"asafoetida (hing)", "Tiny pinch in hot oil", "1 pinch ‚âà 0.5g", 1⟩],
     ["fructans", "high-fodmap"]⟩,
   ⟨"wheat flour", "wheat flour", "low-fodmap",
     [⟨"gluten-free flour blend", "1 cup wheat flour = 1 cup GF blend (1:1)", "1 cup GF blend ‚âà 120g", 1⟩,
      ⟨"spelt flour (white)", "1:1 substitution in limited amounts", "1 cup ‚âà 120g", 1⟩,
      ⟨"oat flour (certified GF)", "1:1 in moderate amounts (1/4 cup or so)", "1 cup ‚âà 120g", 1⟩,
      ⟨"rice flour", "1:1 for thickening or breading", "1 cup ‚âà 120g", 1⟩],
     ["fructans", "wheat", "gluten"]⟩,
   ⟨"milk", "milk", "low-fodmap",
     [⟨"lactose-free milk", "1 cup whole milk = 1 cup lactose-free milk (1:1)", "1 cup = 240ml", 1⟩,
      ⟨"almond milk", "1:1 up to 1 cup serving", "1 cup = 240ml", 1⟩,
      ⟨"rice milk", "1:1 up to 1 cup serving", "1 cup = 240ml", 1⟩,
      ⟨"oat milk (small servings)", "1:1 up to 1/2 cup serving", "1 cup = 240ml", 1⟩],
     ["lactose", "dairy"]⟩,
   ⟨"honey", "honey", "low-fodmap",
     [⟨"pure maple syrup", "1 Tbsp honey = 1 Tbsp maple syrup (1:1)", "1 Tbsp = 15ml", 1⟩,
      ⟨"brown sugar", "1/4 cup honey = 1/4 cup brown sugar + 1 Tbsp water", "1 Tbsp = 15ml", 1⟩,
      ⟨"rice malt syrup", "1 Tbsp honey = 1 Tbsp rice syrup (3/4 as sweet)", "1 Tbsp = 15ml", 1⟩],
     ["fructose", "high-fodmap"]⟩,
   ⟨"legumes", "legumes", "low-fodmap",
     [⟨"canned lentils (rinsed)", "1 cup cooked beans = 1 cup canned lentils (limit to ~1/2 cup per serving)", "1 cup = 175g (cooked lentils)", 1⟩,
      ⟨"canned chickpeas (rinsed)", "1/2 cup (46g drained) per serving", "1 cup = 175g", 1⟩,
      ⟨"firm tofu", "1 cup beans = 1 cup firm tofu cubes", "1 cup = 175g", 1⟩,
      ⟨"quinoa", "1:1 volume replacement in salads", "1 cup cooked ‚âà 185g", 1⟩],
     ["gos", "fructans", "high-fodmap"]⟩,
   ⟨"wheat bread", "wheat bread", "low-fodmap",
     [⟨"sourdough bread (traditional)", "2 slices regular bread = 2 slices sourdough (same quantity)", "1 slice ‚âà 30g", 1⟩,
      ⟨"spelt sourdough", "2 slices regular bread = 2 slices spelt sourdough", "1 slice ‚âà 30g", 1⟩,
      ⟨"gluten-free bread", "1:1 slice replacement", "1 slice ‚âà 30g", 1⟩],
     ["fructans", "wheat", "gluten"]⟩,
   ⟨"apples", "apples", "low-fodmap",
     [⟨"banana (just ripe)", "1 medium apple (150g) = 1 medium banana (100g)", "1 fruit ‚âà 150g", 1⟩,
      ⟨"berries (strawberry, blueberry, raspberry)", "1 medium apple = ~10 medium strawberries (150g)", "1 cup ‚âà 150g", 1⟩,
      ⟨"citrus (orange, mandarin)", "1 medium apple (150g) = 1 medium navel orange (180g)", "1 fruit ‚âà 150g", 1⟩,
      ⟨"kiwi", "2 kiwis can replace 1 apple in fruit platters", "1 fruit ‚âà 75g", 1⟩],
     ["fructose", "high-fodmap"]⟩,
   ⟨"pears", "pears", "low-fodmap",
     [⟨"banana (just ripe)", "1 medium pear = 1 medium banana", "1 fruit ‚âà 150g", 1⟩,
      ⟨"grapes", "1 cup chopped pear = 1 cup halved grapes", "1 cup ‚âà 150g", 1⟩,
      ⟨"cantaloupe", "1 cup chopped pear = 1 cup cubed cantaloupe", "1 cup ‚âà 150g", 1⟩,
      ⟨"dragonfruit (pitaya)", "1:1 volume replacement", "1 fruit ‚âà 150g", 1⟩],
     ["fructose", "polyols", "high-fodmap"]⟩,
   ⟨"flour_gluten-free", "flour", "gluten-free",
     [⟨"almond flour", "1 cup wheat flour = 1 cup almond flour", "1 cup ‚âà 96g", 1⟩,
      ⟨"coconut flour", "1 cup wheat flour = 1/4 cup coconut flour + extra eggs", "1 cup ‚âà 120g", 1⟩,
      ⟨"gluten-free all-purpose blend", "1:1 substitution", "1 cup ‚âà 120g", 1⟩,
      ⟨"oat flour (certified GF)", "1:1 substitution", "1 cup ‚âà 120g", 1⟩],
     ["gluten", "wheat"]⟩,
   ⟨"wheat bread_gluten-free", "wheat bread", "gluten-free",
     [⟨"gluten-free bread", "1:1 slice replacement", "1 slice ‚âà 30g", 1⟩,
      ⟨"lettuce wraps", "2 slices bread = 2 large lettuce leaves", "1 leaf ‚âà 15g", 1⟩,
      ⟨"gluten-free tortillas", "2 slices bread = 1 large tortilla", "1 tortilla ‚âà 60g", 1⟩],
     ["gluten", "wheat"]⟩,
   ⟨"sugar_keto", "sugar", "keto",
     [⟨"erythritol", "1 cup sugar = 1 cup erythritol", "1 cup ‚âà 200g", 1⟩,
      ⟨"stevia", "1 cup sugar = 1 tsp stevia powder", "1 tsp ‚âà 4g", 1⟩,
      ⟨"monk fruit sweetener", "1 cup sugar = 1 cup monk fruit blend", "1 cup ‚âà 200g", 1⟩,
      ⟨"allulose", "1:1 substitution", "1 cup ‚âà 200g", 1⟩],
     ["carbs", "sugar", "high-carb"]⟩,
   ⟨"flour_keto", "flour", "keto",
     [⟨"almond flour", "1 cup flour = 1 cup almond flour", "1 cup ‚âà 96g", 1⟩,
      ⟨"coconut flour", "1 cup flour = 1/4 cup coconut flour + extra eggs", "1 cup ‚âà 120g", 1⟩,
      ⟨"psyllium husk powder", "1 cup flour = 1/4 cup psyllium + 3/4 cup almond flour", "1 cup ‚âà 120g", 1⟩],
     ["carbs", "starch", "high-carb"]⟩,
   ⟨"rice_keto", "rice", "keto",
     [⟨"cauliflower rice", "1 cup rice = 1 cup cauliflower rice", "1 cup ‚âà 100g", 1⟩,
      ⟨"shirataki rice", "1:1 volume replacement", "1 cup ‚âà 100g", 1⟩,
      ⟨"broccoli rice", "1 cup rice = 1 cup broccoli rice", "1 cup ‚âà 100g", 1⟩],
     ["carbs", "starch", "high-carb"]⟩,
   ⟨"milk_vegan", "milk", "vegan",
     [⟨"oat milk", "1:1 substitution", "1 cup = 240ml", 1⟩,
      ⟨"almond milk", "1:1 substitution", "1 cup = 240ml", 1⟩,
      ⟨"coconut milk", "1:1 substitution", "1 cup = 240ml", 1⟩,
      ⟨"soy milk", "1:1 substitution", "1 cup = 240ml", 1⟩],
     ["dairy", "animal-products"]⟩,
   ⟨"butter_vegan", "butter", "vegan",
     [⟨"coconut oil", "1:1 substitution", "1 Tbsp = 14g", 1⟩,
      ⟨"vegan butter", "1:1 substitution", "1 Tbsp = 14g", 1⟩,
      ⟨"olive oil", "1 Tbsp butter = 3/4 Tbsp olive oil", "1 Tbsp = 15ml", 1⟩,
      ⟨"avocado", "1 Tbsp butter = 1/4 mashed avocado", "1 Tbsp = 14g", 1⟩],
     ["dairy", "animal-products"]⟩,
   ⟨"eggs_vegan", "eggs", "vegan",
     [⟨"flax egg", "1 egg = 1 Tbsp ground flaxseed + 3 Tbsp water", "1 egg ‚âà 50g", 1⟩,
      ⟨"chia egg", "1 egg = 1 Tbsp chia seeds + 3 Tbsp water", "1 egg ‚âà 50g", 1⟩,
      ⟨"applesauce", "1 egg = 1/4 cup applesauce", "1 egg ‚âà 50g", 1⟩,
      ⟨"aquafaba", "1 egg = 3 Tbsp aquafaba (chickpea liquid)", "1 egg ‚âà 50g", 1⟩],
     ["eggs", "animal-products"]⟩,
   ⟨"honey_vegan", "honey", "vegan",
     [⟨"maple syrup", "1:1 substitution", "1 Tbsp = 15ml", 1⟩,
      ⟨"agave nectar", "1:1 substitution", "1 Tbsp = 15ml", 1⟩,
      ⟨"date syrup", "1:1 substitution", "1 Tbsp = 15ml", 1⟩,
      ⟨"brown rice syrup", "1:1 substitution", "1 Tbsp = 15ml", 1⟩],
     ["honey", "animal-products"]⟩,
   ⟨"milk_dairy-free", "milk", "dairy-free",
     [⟨"oat milk", "1:1 substitution", "1 cup ‚âà 240ml", 1⟩,
      ⟨"almond milk", "1:1 substitution", "1 cup ‚âà 240ml", 1⟩,
      ⟨"coconut milk", "1:1 substitution", "1 cup ‚âà 240ml", 1⟩,
      ⟨"soy milk", "1:1 substitution", "1 cup ‚âà 240ml", 1⟩],
     ["dairy", "lactose"]⟩,
   ⟨"cheese_dairy-free", "cheese", "dairy-free",
     [⟨"nutritional yeast", "1/4 cup cheese = 2-3 Tbsp nutritional yeast", "1 Tbsp ‚âà 5g", 1⟩,
      ⟨"cashew cheese", "1:1 substitution", "1 cup ‚âà 100g", 1⟩,
      ⟨"coconut cream", "1 cup cheese = 1 cup coconut cream", "1 cup ‚âà 240ml", 1⟩,
      ⟨"dairy-free cheese", "1:1 substitution", "1 cup ‚âà 100g", 1⟩],
     ["dairy", "lactose"]⟩,
   ⟨"yogurt_dairy-free", "yogurt", "dairy-free",
     [⟨"coconut yogurt", "1:1 substitution", "1 cup ‚âà 240ml", 1⟩,
      ⟨"almond yogurt", "1:1 substitution", "1 cup ‚âà 240ml", 1⟩,
      ⟨"soy yogurt", "1:1 substitution", "1 cup ‚âà 240ml", 1⟩,
      ⟨"cashew yogurt", "1:1 substitution", "1 cup ‚âà 240ml", 1⟩],
     ["dairy", "lactose"]⟩,
   ⟨"grains_paleo", "grains", "paleo",
     [⟨"cauliflower rice", "1 cup grains = 1 cup cauliflower rice", "1 cup ‚âà 100g", 1⟩,
      ⟨"sweet potato", "1 cup grains = 1 cup mashed sweet potato", "1 cup ‚âà 200g", 1⟩,
      ⟨"spaghetti squash", "1 cup pasta = 1 cup spaghetti squash", "1 cup ‚âà 100g", 1⟩,
      ⟨"zucchini noodles", "1 cup pasta = 1 cup zucchini noodles", "1 cup ‚âà 100g", 1⟩],
     ["grains", "gluten", "processed"]⟩,
   ⟨"legumes_paleo", "legumes", "paleo",
     [⟨"nuts and seeds", "1 cup legumes = 1/2 cup mixed nuts/seeds", "1 cup ‚âà 150g", 1⟩,
      ⟨"mushrooms", "1 cup legumes = 1 cup sliced mushrooms", "1 cup ‚âà 70g", 1⟩,
      ⟨"eggs", "1 cup legumes = 2-3 eggs", "1 egg ‚âà 50g", 1⟩],
     ["legumes", "beans", "processed"]⟩,
   ⟨"soy sauce_soy-free", "soy sauce", "soy-free",
     [⟨"coconut aminos", "1:1 substitution", "1 Tbsp = 15ml", 1⟩,
      ⟨"tamari (gluten-free soy sauce)", "1:1 substitution", "1 Tbsp = 15ml", 1⟩,
      ⟨"worcestershire sauce", "1 Tbsp soy sauce = 1 Tbsp worcestershire", "1 Tbsp = 15ml", 1⟩,
      ⟨"fish sauce", "1 Tbsp soy sauce = 1 Tbsp fish sauce", "1 Tbsp = 15ml", 1⟩],
     ["soy", "legumes"]⟩,
   ⟨"tofu_soy-free", "tofu", "soy-free",
     [⟨"tempeh (if tolerated)", "1:1 substitution", "1 cup ‚âà 150g", 1⟩,
      ⟨"seitan", "1:1 substitution", "1 cup ‚âà 150g", 1⟩,
      ⟨"mushrooms", "1 cup tofu = 1 cup sliced mushrooms", "1 cup ‚âà 70g", 1⟩,
      ⟨"jackfruit", "1 cup tofu = 1 cup young jackfruit", "1 cup ‚âà 150g", 1⟩],
     ["soy", "legumes"]⟩,
   ⟨"eggs_egg-free", "eggs", "egg-free",
     [⟨"flax egg", "1 egg = 1 Tbsp ground flaxseed + 3 Tbsp water", "1 egg ‚âà 50g", 1⟩,
      ⟨"chia egg", "1 egg = 1 Tbsp chia seeds + 3 Tbsp water", "1 egg ‚âà 50g", 1⟩,
      ⟨"applesauce", "1 egg = 1/4 cup applesauce", "1 egg ‚âà 50g", 1⟩,
      ⟨"banana", "1 egg = 1/2 mashed banana", "1 egg ‚âà 50g", 1⟩],
     ["eggs", "allergen"]⟩,
   ⟨"almond flour_nut-free", "almond flour", "nut-free",
     [⟨"sunflower seed flour", "1:1 substitution", "1 cup ‚âà 96g", 1⟩,
      ⟨"pumpkin seed flour", "1:1 substitution", "1 cup ‚âà 96g", 1⟩,
      ⟨"oat flour (certified GF)", "1:1 substitution", "1 cup ‚âà 120g", 1⟩,
      ⟨"coconut flour", "1 cup almond flour = 1/4 cup coconut flour + extra eggs", "1 cup ‚âà 120g", 1⟩],
     ["nuts", "tree-nuts", "almonds"]⟩,
   ⟨"peanut butter_nut-free", "peanut butter", "nut-free",
     [⟨"sunflower seed butter", "1:1 substitution", "1 Tbsp ‚âà 16g", 1⟩,
      ⟨"soy butter", "1:1 substitution", "1 Tbsp ‚âà 16g", 1⟩,
      ⟨"tahini", "1:1 substitution", "1 Tbsp ‚âà 16g", 1⟩],
     ["nuts", "peanuts", "tree-nuts"]⟩,
   ⟨"granulated sugar", "granulated sugar", "keto",
     [⟨"erythritol", "1 cup sugar = 1 cup erythritol", "1:1", 1⟩,
      ⟨"stevia", "1 cup sugar = 1 tsp stevia powder", "1:200", 1⟩,
      ⟨"monk fruit", "1 cup sugar = 1/2 cup monk fruit sweetener", "1:2", 1⟩,
      ⟨"allulose", "1 cup sugar = 1 cup allulose", "1:1", 1⟩],
     ["sugar", "sweetener", "high-carb", "glucose", "fructose"]⟩]

/-- RestrictionKnowledgeBase.get_substitution_options: composite-key lookup
in self.restrictions; miss yields the empty list. -/
def kbGetSubstitutionOptions (ingredient dietType : String) : List SubstitutionOption :=
  match restrictionTable.find? (fun e => e.key == pyLowerStrip ingredient ++ "_" ++ dietType) with
  | some e => e.substitutionOptions
  | none => []

/-- RestrictionKnowledgeBase.is_forbidden: entry exists and its option list is
non-empty; miss yields False. -/
def kbIsForbidden (ingredient dietType : String) : Bool :=
  match restrictionTable.find? (fun e => e.key == pyLowerStrip ingredient ++ "_" ++ dietType) with
  | some e => decide (0 < e.substitutionOptions.length)
  | none => false

-- ### Unified system (src/unified_substitution_system.py)

/-- UnifiedSubstitutionSystem.get_substitution_options: canonicalize, then
raw knowledge-base lookup. -/
def uGetSubstitutionOptions (ingredient dietType : String) : List SubstitutionOption :=
  kbGetSubstitutionOptions (canonicalize ingredient) dietType

/-- UnifiedSubstitutionSystem.is_forbidden: canonicalize, then raw check. -/
def uIsForbidden (ingredient dietType : String) : Bool :=
  kbIsForbidden (canonicalize ingredient) dietType

-- ### Composite diet engine (src/composite_diet_engine.py)

/-- RecipeIngredient of llm_substitution_engine.py. -/
structure RecipeIngredient where
  name : String
  amount : String
  unit : String
  quantity : Rat
  notes : String := ""
deriving Repr, DecidableEq, BEq

/-- DietConflict of composite_diet_engine.py. -/
structure DietConflict where
  ingredient : String
  conflictingDiets : List String
  conflictType : String
  suggestedResolution : String
  severity : String
deriving Repr, DecidableEq

/-- One change record of the per-diet diet_changes list in
apply_composite_diets (the dict with keys diet, original, substitution,
ratio, reasoning). -/
structure ChangeRec where
  diet : String
  original : String
  substitution : String
  ratioText : String
  reasoning : String
deriving Repr, DecidableEq

/-- One substitution_history entry: the diet, its change records, and the
number of ingredients affected. -/
structure HistoryEntry where
  diet : String
  changes : List ChangeRec
  ingredientsAffected : Nat
deriving Repr, DecidableEq

/-- CompositeSubstitutionResult of composite_diet_engine.py. -/
structure CompositeResult where
  originalRecipe : List RecipeIngredient
  appliedDiets : List String
  finalIngredients : List RecipeIngredient
  substitutionHistory : List HistoryEntry
  conflicts : List DietConflict
  warnings : List String
  changeLog : List String
  success : Bool
deriving Repr, DecidableEq

/-- A single-quote character as a string (used in the log/warning texts the
Python code builds with f-strings). -/
def sQuote : String := String.mk [Char.ofNat 39]

/-- Python str.join with separator ", ". -/
def commaJoin : List String → String
  | [] => ""
  | [x] => x
  | x :: xs => x ++ ", " ++ commaJoin xs

/-- The fixed diet priority order of CompositeDietEngine.__init__. -/
def dietPriority : List String :=
  ["keto", "paleo", "vegan", "dairy-free", "gluten-free", "soy-free",
   "egg-free", "nut-free", "low-fodmap"]

/-- Python dict insertion: overwrite in place when the key exists, else
append (Python 3.7+ keeps the original position of an overwritten key). -/
def pyDictInsert [BEq K] (k : K) (v : V) : List (K × V) → List (K × V)
  | [] => [(k, v)]
  | (k2, v2) :: rest =>
    if k2 == k then (k2, v) :: rest else (k2, v2) :: pyDictInsert k v rest

/-- Python dict lookup. -/
def pyDictFind [BEq K] (k : K) (d : List (K × V)) : Option V :=
  (d.find? (fun e => e.fst == k)).map (·.snd)

/-- The per-diet dict of find_common_substitutions:
option name lowercased mapped to the option object. -/
def mkNameDict (opts : List SubstitutionOption) : List (String × SubstitutionOption) :=
  opts.foldl (fun acc o => pyDictInsert (pyLowerStr o.name) o acc) []

/-- CompositeDietEngine.find_common_substitutions: intersect, by lowercased
name, the per-diet option key sets; each surviving name contributes the
option object of the highest-priority diet offering it (names offered by no
priority-listed diet contribute nothing).  Python iterates the intersection
as a set in unspecified hash order; the model fixes the insertion order of
the first diet's keys, which is the only place this order is observable. -/
def findCommonSubstitutions (ingredient : String) (diets : List String) : List SubstitutionOption :=
  if diets.isEmpty then [] else
  let dietOptions := diets.foldl
    (fun acc d => pyDictInsert d (mkNameDict (uGetSubstitutionOptions ingredient d)) acc) []
  match dietOptions with
  | [] => []
  | (firstDiet, firstDict) :: _ =>
    let commonNames := (firstDict.map (·.fst)).filter
      (fun n => dietOptions.all
        (fun e => e.fst == firstDiet || e.snd.any (fun p => p.fst == n)))
    commonNames.filterMap (fun n =>
      dietPriority.findSome? (fun d =>
        (pyDictFind d dietOptions).bind (fun od => pyDictFind n od)))

/-- CompositeDietEngine.detect_diet_conflicts. -/
def detectDietConflicts (ingredient : String) (diets : List String) : List DietConflict :=
  let forbiddenDiets := diets.filter (fun d => uIsForbidden ingredient d)
  if 1 < forbiddenDiets.length then
    match findCommonSubstitutions ingredient forbiddenDiets with
    | [] => [⟨ingredient, forbiddenDiets, "no_common_substitution",
              "No single substitution works for all diets: " ++ commaJoin forbiddenDiets,
              "error"⟩]
    | c :: _ => [⟨ingredient, forbiddenDiets, "multiple_diet_restriction",
              "Use common substitution: " ++ c.name, "warning"⟩]
  else if forbiddenDiets.length == 1 then
    [⟨ingredient, forbiddenDiets, "single_diet_restriction",
      "Ingredient forbidden in " ++ forbiddenDiets.headD "" ++ " diet", "info"⟩]
  else []

/-- CompositeDietEngine.get_union_forbidden_tags: all forbidden tags of the
table entries whose diet matches one of the given diets.  Python collects
them into a set; the model keeps a list with duplicates, and every use is
membership-only, so the difference is unobservable. -/
def getUnionForbiddenTags (diets : List String) : List String :=
  diets.flatMap (fun d =>
    (restrictionTable.filter (fun e => e.dietType == d)).flatMap (·.forbiddenTags))

/-- Whether one forbidden tag occurs, case-insensitively, inside the
canonical name of an ingredient (the loop body of validate_final_compliance). -/
def ingredientTagHit (tags : List String) (ing : RecipeIngredient) : Bool :=
  tags.any (fun t =>
    isSubList (pyLowerStr t).data (pyLowerStr (canonicalize ing.name)).data)

/-- CompositeDietEngine.validate_final_compliance. -/
def validateFinalCompliance (ings : List RecipeIngredient) (diets : List String) : Bool :=
  let ut := getUnionForbiddenTags diets
  ings.all (fun ing => !ingredientTagHit ut ing)

/-- Python diet_priority.index with the 999 default of the sort key in
apply_composite_diets. -/
def priorityKey (d : String) : Nat :=
  (dietPriority.findIdx? (fun p => p == d)).getD 999

/-- Stable insertion used to model Python sorted with the priority key:
an element is inserted before the first already-sorted element with a
strictly larger key, hence after earlier elements with equal keys. -/
def insSorted (x : String) : List String → List String
  | [] => [x]
  | y :: ys =>
    if priorityKey y < priorityKey x then y :: insSorted x ys
    else x :: y :: ys

/-- Python sorted(diets, key=priority index, unknown diets last), a stable
sort. -/
def sortDiets : List String → List String
  | [] => []
  | x :: xs => insSorted x (sortDiets xs)

/-- The mutable state of one diet pass of apply_composite_diets. -/
structure PassState where
  ings : List RecipeIngredient
  subst : List String
  changes : List ChangeRec
  warns : List String
  log : List String
deriving Repr

/-- The body of the inner ingredient loop of apply_composite_diets, at
position i of the live (already partially substituted) ingredient list. -/
def passStep (sortedDiets : List String) (diet : String) (st : PassState) (i : Nat) : PassState :=
  match st.ings.get? i with
  | none => st
  | some ing =>
    if st.subst.contains ing.name then st
    else if uIsForbidden ing.name diet then
      match uGetSubstitutionOptions ing.name diet with
      | [] => { st with warns := st.warns ++
          ["No substitution found for " ++ sQuote ++ ing.name ++ sQuote ++ " on " ++ diet ++ " diet"] }
      | o :: _ =>
        let remaining := sortedDiets.filter (fun d => d ≠ diet)
        let commons := findCommonSubstitutions ing.name (diet :: remaining)
        let selected := match commons with | c :: _ => c | [] => o
        let newIng : RecipeIngredient :=
          ⟨selected.name, ing.amount, ing.unit, ing.quantity,
           ing.notes ++ " (substituted for " ++ ing.name ++ ")"⟩
        let j := st.ings.findIdx (fun x => x == ing)
        { st with
          ings := st.ings.set j newIng,
          subst := st.subst ++ [ing.name],
          changes := st.changes ++
            [⟨diet, ing.name, selected.name, selected.ratioText,
              "Applied for " ++ diet ++ " diet compatibility"⟩],
          log := st.log ++
            ["[" ++ diet ++ "] Replaced " ++ sQuote ++ ing.name ++ sQuote ++ " with " ++
             sQuote ++ selected.name ++ sQuote] }
    else st

/-- The accumulated state across diet passes of apply_composite_diets. -/
structure EngineAcc where
  ings : List RecipeIngredient
  subst : List String
  history : List HistoryEntry
  warns : List String
  log : List String
deriving Repr

/-- One whole diet pass: the inner loop runs over the indices of the live
ingredient list (whose length never changes), then the pass is recorded in
the substitution history when it changed anything. -/
def applyDiet (sortedDiets : List String) (acc : EngineAcc) (diet : String) : EngineAcc :=
  let st0 : PassState := ⟨acc.ings, acc.subst, [], acc.warns, acc.log⟩
  let st := (List.range acc.ings.length).foldl (passStep sortedDiets diet) st0
  { ings := st.ings, subst := st.subst,
    history := if st.changes.isEmpty then acc.history
               else acc.history ++ [⟨diet, st.changes, st.changes.length⟩],
    warns := st.warns, log := st.log }

/-- CompositeDietEngine.apply_composite_diets. -/
def applyCompositeDiets (recipe : List RecipeIngredient) (diets : List String) : CompositeResult :=
  let sorted := sortDiets diets
  let acc := sorted.foldl (applyDiet sorted) (⟨recipe, [], [], [], []⟩ : EngineAcc)
  let conflicts := acc.ings.flatMap (fun ing => detectDietConflicts ing.name sorted)
  let compliance := validateFinalCompliance acc.ings sorted
  let critical := conflicts.filter (fun c => c.severity == "error")
  ⟨recipe, sorted, acc.ings, acc.history, conflicts, acc.warns, acc.log,
   compliance && critical.length == 0⟩

/-- The flat list of change records of a composite run. -/
def allChangeRecords (r : CompositeResult) : List ChangeRec :=
  r.substitutionHistory.flatMap (·.changes)

/-- The three-ingredient recipe of the spec scenario. -/
def c1Recipe : List RecipeIngredient :=
  [⟨"eggs", "", "", 0, ""⟩, ⟨"milk", "", "", 0, ""⟩, ⟨"flour", "", "", 0, ""⟩]

-- ### Unit converter (src/unit_converter.py)

/-- UnitType of unit_converter.py. -/
inductive PyUnitType where
  | mass | volume | count | length | temperature | unknown
deriving Repr, DecidableEq

/-- The .value string of the UnitType enum. -/
def PyUnitType.value : PyUnitType → String
  | .mass => "mass"
  | .volume => "volume"
  | .count => "count"
  | .length => "length"
  | .temperature => "temperature"
  | .unknown => "unknown"

/-- Unit of unit_converter.py: name, dimension, factor to the dimension's
base unit, alias names.  Factors are the source's decimal literals read as
exact rationals. -/
structure UnitInfo where
  name : String
  unitType : PyUnitType
  baseFactor : Rat
  unitAliases : List String
deriving Repr, DecidableEq

/-- The unit list of _build_unit_database, in source order. -/
def unitList : List UnitInfo :=
  [⟨"g", .mass, 1, ["gram", "grams"]⟩,
   ⟨"kg", .mass, 1000, ["kilogram", "kilograms", "kilo"]⟩,
   ⟨"lb", .mass, 453.592, ["pound", "pounds", "lbs"]⟩,
   ⟨"oz", .mass, 28.3495, ["ounce", "ounces"]⟩,
   ⟨"ml", .volume, 1, ["milliliter", "milliliters"]⟩,
   ⟨"l", .volume, 1000, ["liter", "liters", "litre", "litres"]⟩,
   ⟨"cup", .volume, 236.588, ["cups"]⟩,
   ⟨"tbsp", .volume, 14.7868, ["tablespoon", "tablespoons", "T", "Tbsp"]⟩,
   ⟨"tsp", .volume, 4.92892, ["teaspoon", "teaspoons", "t"]⟩,
   ⟨"fl oz", .volume, 29.5735, ["fluid ounce", "fluid ounces"]⟩,
   ⟨"pt", .volume, 473.176, ["pint", "pints"]⟩,
   ⟨"qt", .volume, 946.353, ["quart", "quarts"]⟩,
   ⟨"gal", .volume, 3785.41, ["gallon", "gallons"]⟩,
   ⟨"piece", .count, 1, ["pieces", "pcs", "pc"]⟩,
   ⟨"dozen", .count, 12, ["dozens"]⟩,
   ⟨"mm", .length, 1, ["millimeter", "millimeters"]⟩,
   ⟨"cm", .length, 10, ["centimeter", "centimeters"]⟩,
   ⟨"in", .length, 25.4, ["inch", "inches"]⟩,
   ⟨"°C", .temperature, 1, ["celsius", "centigrade"]⟩,
   ⟨"°F", .temperature, 1, ["fahrenheit"]⟩]

/-- The units dict: every unit under its name and under each alias, in
insertion order (no key collides, since "T" and "t" are distinct keys). -/
def unitTable : List (String × UnitInfo) :=
  unitList.foldl
    (fun acc u => u.unitAliases.foldl (fun a al => pyDictInsert al u a) (pyDictInsert u.name u acc))
    []

/-- The ingredient density table of _build_density_database, grams per
milliliter. -/
def densityTable : List (String × Rat) :=
  [("flour", 0.6), ("sugar", 0.85), ("brown sugar", 0.8), ("powdered sugar", 0.6),
   ("butter", 0.91), ("oil", 0.92), ("milk", 1.03), ("water", 1),
   ("honey", 1.4), ("molasses", 1.4), ("corn syrup", 1.36), ("cream", 1),
   ("yogurt", 1.03), ("sour cream", 1), ("cheese", 1), ("nuts", 0.6),
   ("almond flour", 0.4), ("coconut flour", 0.3), ("cocoa powder", 0.4),
   ("baking powder", 0.9), ("baking soda", 0.9), ("salt", 1.2),
   ("rice", 0.8), ("oats", 0.3)]

/-- ConversionResult of unit_converter.py. -/
structure ConversionResult where
  originalAmount : Rat
  originalUnit : String
  convertedAmount : Rat
  convertedUnit : String
  conversionFactor : Rat
  success : Bool
  errorMessage : String := ""
deriving Repr, DecidableEq

/-- UnitConverter.get_unit_type. -/
def getUnitType (u : String) : PyUnitType :=
  match pyDictFind (pyLowerStrip u) unitTable with
  | some ui => ui.unitType
  | none => .unknown

/-- UnitConverter.convert_same_dimension.  Rational arithmetic is exact where
Python uses IEEE doubles. -/
def convertSameDimension (amount : Rat) (fromU toU : String) : ConversionResult :=
  match pyDictFind (pyLowerStrip fromU) unitTable with
  | none => ⟨amount, fromU, 0, toU, 0, false, "Unknown unit: " ++ fromU⟩
  | some fObj =>
    match pyDictFind (pyLowerStrip toU) unitTable with
    | none => ⟨amount, fromU, 0, toU, 0, false, "Unknown unit: " ++ toU⟩
    | some tObj =>
      if fObj.unitType ≠ tObj.unitType then
        ⟨amount, fromU, 0, toU, 0, false,
         "Cannot convert " ++ fromU ++ " (" ++ fObj.unitType.value ++ ") to " ++
         toU ++ " (" ++ tObj.unitType.value ++ ")"⟩
      else
        ⟨amount, fromU, amount * fObj.baseFactor / tObj.baseFactor, toU,
         tObj.baseFactor / fObj.baseFactor, true, ""⟩

/-- UnitConverter.convert_cross_dimension.  The density key is
ingredient.lower() without strip, mirroring the source.  On the success path
Python computes converted_amount / amount, a ZeroDivisionError when amount
is 0; Rat division by zero yields 0 instead — no claim touches that spot,
and every failure branch returns before the division. -/
def convertCrossDimension (amount : Rat) (fromU toU ingredient : String) : ConversionResult :=
  match pyDictFind (pyLowerStrip fromU) unitTable, pyDictFind (pyLowerStrip toU) unitTable with
  | none, _ => ⟨amount, fromU, 0, toU, 0, false, "Unknown units for cross-dimension conversion"⟩
  | some _, none => ⟨amount, fromU, 0, toU, 0, false, "Unknown units for cross-dimension conversion"⟩
  | some fObj, some tObj =>
    match pyDictFind (pyLowerStr ingredient) densityTable with
    | none => ⟨amount, fromU, 0, toU, 0, false,
               "No density information available for " ++ ingredient⟩
    | some density =>
      if fObj.unitType == PyUnitType.mass then
        let volumeMl := amount * fObj.baseFactor / density
        ⟨amount, fromU, volumeMl / tObj.baseFactor, toU,
         volumeMl / tObj.baseFactor / amount, true, ""⟩
      else if fObj.unitType == PyUnitType.volume then
        let massG := amount * fObj.baseFactor * density
        ⟨amount, fromU, massG / tObj.baseFactor, toU,
         massG / tObj.baseFactor / amount, true, ""⟩
      else
        ⟨amount, fromU, 0, toU, 0, false,
         "Cannot convert " ++ fObj.unitType.value ++ " to " ++ tObj.unitType.value⟩

/-- UnitConverter.convert. -/
def converterConvert (amount : Rat) (fromU toU ingredient : String) : ConversionResult :=
  if pyLowerStrip fromU == pyLowerStrip toU then
    ⟨amount, fromU, amount, toU, 1, true, ""⟩
  else
    let fromType := getUnitType fromU
    let toType := getUnitType toU
    if fromType == PyUnitType.unknown || toType == PyUnitType.unknown then
      ⟨amount, fromU, 0, toU, 0, false, "Unknown unit types"⟩
    else if fromType == toType then
      convertSameDimension amount fromU toU
    else if (fromType == PyUnitType.mass && toType == PyUnitType.volume) ||
            (fromType == PyUnitType.volume && toType == PyUnitType.mass) then
      convertCrossDimension amount fromU toU ingredient
    else
      ⟨amount, fromU, 0, toU, 0, false,
       "Cannot convert " ++ fromType.value ++ " to " ++ toType.value⟩

-- ### Amount parsing (UnitConverter.parse_amount / _convert_fractions)

/-- The value of a string of decimal digit characters. -/
def natOfDigits (l : List Char) : Nat :=
  l.foldl (fun acc c => 10 * acc + (c.toNat - 48)) 0

/-- The regex class [a-zA-Z]. -/
def isAsciiAlpha (c : Char) : Bool :=
  ('a' ≤ c && c ≤ 'z') || ('A' ≤ c && c ≤ 'Z')

/-- The fixed fraction table of _convert_fractions. -/
def fractionMap : List (String × String) :=
  [("1/8", "0.125"), ("1/4", "0.25"), ("1/3", "0.333"), ("3/8", "0.375"),
   ("1/2", "0.5"), ("5/8", "0.625"), ("2/3", "0.667"), ("3/4", "0.75"),
   ("7/8", "0.875")]

/-- Match the mixed-number regex digits-whitespace-digits/digits at the
start of the text, returning (group 1, group 2, group 0).  The pattern has
no backtracking: digits, whitespace and the slash are pairwise disjoint
character classes, so the greedy maximal runs are the only possible match. -/
def matchMixedAt (l : List Char) : Option (List Char × List Char × List Char) :=
  let d1 := l.takeWhile Char.isDigit
  if d1.isEmpty then none else
  let r1 := l.drop d1.length
  let ws := r1.takeWhile isPyWS
  if ws.isEmpty then none else
  let r2 := r1.drop ws.length
  let d2 := r2.takeWhile Char.isDigit
  if d2.isEmpty then none else
  match r2.drop d2.length with
  | '/' :: r4 =>
    let d3 := r4.takeWhile Char.isDigit
    if d3.isEmpty then none else
    some (d1, d2 ++ '/' :: d3, d1 ++ ws ++ d2 ++ '/' :: d3)
  | _ => none

/-- Python re.search for the mixed-number pattern: the leftmost position
where it matches. -/
def searchMixed : List Char → Option (List Char × List Char × List Char)
  | [] => none
  | c :: rest =>
    match matchMixedAt (c :: rest) with
    | some r => some r
    | none => searchMixed rest

/-- Python str.replace: replace every non-overlapping occurrence of old,
scanning left to right.  Fueled by the string length for structural
recursion; each replacement consumes at least one character, so the fuel is
sufficient.  (Python inserts new around every character when old is empty;
old is never empty here and the fueled version just copies in that case.) -/
def replaceAllAux : Nat → List Char → List Char → List Char → List Char
  | 0, s, _, _ => s
  | fuel + 1, s, old, new =>
    match s with
    | [] => []
    | c :: rest =>
      if !old.isEmpty && old.isPrefixOf (c :: rest) then
        new ++ replaceAllAux fuel ((c :: rest).drop old.length) old new
      else c :: replaceAllAux fuel rest old new

/-- Python s.replace(old, new). -/
def replaceAll (s old new : List Char) : List Char :=
  replaceAllAux s.length s old new

/-- Python str(whole + float(decStr)) for a mixed number: the decimal parts
of the fraction table are exact short float round-trips at the magnitudes
of the table, so the result is the whole part in canonical decimal digits
(leading zeros normalized away by int()) followed by the fractional digits.
(For astronomically large whole parts Python float formatting would switch
to exponent notation; no table value or claim reaches that.) -/
def mixedTotalStr (whole : List Char) (decStr : String) : List Char :=
  (Nat.repr (natOfDigits whole)).data ++ decStr.data.drop 1

/-- UnitConverter._convert_fractions: first the mixed-number rewrite (replace
every occurrence of the matched text by the combined decimal when the
fraction is in the table), then the standalone fraction replacements in
table order. -/
def convertFractions (l : List Char) : List Char :=
  let l1 :=
    match searchMixed l with
    | some (d1, frac, g0) =>
      match fractionMap.find? (fun e => e.fst.data == frac) with
      | some e => replaceAll l g0 (mixedTotalStr d1 e.snd)
      | none => l
    | none => l
  fractionMap.foldl (fun acc e => replaceAll acc e.fst.data e.snd.data) l1

/-- The rational value of the matched number token digits.decimals (Python
float() on the token; exact rational here). -/
def ratOfDecimal (intPart : List Char) (decPart : Option (List Char)) : Rat :=
  match decPart with
  | none => (natOfDigits intPart : Rat)
  | some ds => (natOfDigits intPart : Rat) + (natOfDigits ds : Rat) / ((10 : Rat) ^ ds.length)

/-- The anchored extraction regex of parse_amount: leading digits, an
optional dot-digits group, at least one whitespace, then a maximal letter
run as the unit (the regex stops at the first non-letter, and group(2) of a
letter run is unchanged by the .strip() the source applies).  As with the
mixed pattern, the character classes are disjoint, so greedy maximal runs
are faithful. -/
def matchNumUnit (l : List Char) : Option (Rat × String) :=
  let d1 := l.takeWhile Char.isDigit
  if d1.isEmpty then none else
  let r1 := l.drop d1.length
  let step2 : Option (List Char) × List Char :=
    match r1 with
    | '.' :: r2 =>
      let d2 := r2.takeWhile Char.isDigit
      if d2.isEmpty then (none, r1) else (some d2, r2.drop d2.length)
    | _ => (none, r1)
  let ws := step2.2.takeWhile isPyWS
  if ws.isEmpty then none else
  let letters := (step2.2.drop ws.length).takeWhile isAsciiAlpha
  if letters.isEmpty then none else
  some (ratOfDecimal d1 step2.1, String.mk letters)

/-- UnitConverter.parse_amount. -/
def parseAmount (s : String) : Rat × String :=
  if s.isEmpty then (0, "") else
  let cleaned := convertFractions (pyLower (pyStrip s.data))
  match matchNumUnit cleaned with
  | some r => r
  | none => (1, String.mk cleaned)

-- ### Unit-aware substitution engine (src/unit_aware_substitution.py)

/-- UnitAwareSubstitution of unit_aware_substitution.py (culinary notes
omitted as for SubstitutionOption). -/
structure UnitAwareSubstitution where
  originalIngredient : String
  originalAmount : String
  originalUnit : String
  originalQuantity : Rat
  substitutedIngredient : String
  substitutedAmount : String
  substitutedUnit : String
  substitutedQuantity : Rat
  conversionApplied : Bool
  ratioText : String
  unitConvText : String
  confidence : Rat
  conversionResult : Option ConversionResult
deriving Repr, DecidableEq

/-- UnitAwareRecipeResult of unit_aware_substitution.py. -/
structure UnitAwareRecipeResult where
  originalRecipe : List RecipeIngredient
  dietRestrictions : List String
  substitutions : List UnitAwareSubstitution
  unchangedIngredients : List RecipeIngredient
  warnings : List String
  changeLog : List String
  success : Bool
deriving Repr, DecidableEq

/-- UnitAwareSubstitutionEngine.parse_ingredient_amount: parse the amount
text; when it yields no unit, fall back to the separate quantity and unit
fields. -/
def parseIngredientAmount (ing : RecipeIngredient) : Rat × String :=
  if !ing.amount.isEmpty then
    let r := parseAmount ing.amount
    if !r.2.isEmpty then r else (ing.quantity, ing.unit)
  else (ing.quantity, ing.unit)

/-- UnitAwareSubstitutionEngine._parse_substitution_ratio: fixed-text
heuristics on the ratio string.  (The returned target quantity is computed
faithfully but the caller discards it, exactly as the source does.) -/
def parseSubstitutionRatio (ratio : String) (origQty : Rat) (origUnit : String) : Rat × String :=
  if isSubList "1:1".data ratio.data || isSubList "=".data ratio.data then
    (origQty, origUnit)
  else if isSubList "cup".data ratio.data && isSubList "ml".data ratio.data then
    (origQty, "ml")
  else if isSubList "tbsp".data ratio.data && isSubList "tsp".data ratio.data then
    (origQty * 3, "tsp")
  else if isSubList "lb".data ratio.data && isSubList "oz".data ratio.data then
    (origQty * 16, "oz")
  else (origQty, origUnit)

/-- Python str(float) of a quantity, and the integral test
final_quantity == int(final_quantity) of the f-string in
apply_substitution_with_units: a rational equals its int() truncation
exactly when its denominator is 1, and the :.0f rendering of an integral
float is its integer digits.  (The non-integral branch renders Python
shortest-round-trip float text; the model writes num/den, a spot no claim
inspects — it only reaches display strings.) -/
def formatQty (q : Rat) : String :=
  if q.den == 1 then q.num.repr else q.num.repr ++ "/" ++ (q.den : Int).repr

/-- The conversion block of apply_substitution_with_units (lines deciding
final quantity, unit, and the conversion_applied flag): convert only when
the parsed original unit differs from the ratio-derived target unit; on
conversion failure keep the original values. -/
def applyConversionStep (origQty : Rat) (origUnit targetUnit subName : String) :
    Rat × String × Bool × Option ConversionResult :=
  if origUnit ≠ targetUnit then
    let cr := converterConvert origQty origUnit targetUnit subName
    if cr.success then (cr.convertedAmount, cr.convertedUnit, true, some cr)
    else (origQty, origUnit, false, some cr)
  else (origQty, origUnit, false, none)

/-- UnitAwareSubstitutionEngine.apply_substitution_with_units.  The ValueError
raise for an unknown substitution name is an Except.error. -/
def applySubstitutionWithUnits (ing : RecipeIngredient) (substitutionName diet : String) :
    Except String UnitAwareSubstitution :=
  let options := uGetSubstitutionOptions ing.name diet
  match options.find? (fun o => pyLowerStr o.name == pyLowerStr substitutionName) with
  | none => .error ("Substitution " ++ sQuote ++ substitutionName ++ sQuote ++
      " not found for " ++ sQuote ++ ing.name ++ sQuote)
  | some selected =>
    let pa := parseIngredientAmount ing
    let tgt := parseSubstitutionRatio selected.ratioText pa.1 pa.2
    let conv := applyConversionStep pa.1 pa.2 tgt.2 substitutionName
    .ok ⟨ing.name, ing.amount, pa.2, pa.1,
         substitutionName, formatQty conv.1 ++ " " ++ conv.2.1, conv.2.1, conv.1,
         conv.2.2.1, selected.ratioText, selected.unitConvText, selected.confidence,
         conv.2.2.2⟩

/-- The change-log line for an applied unit conversion (the arrow text is the
source file's literal bytes). -/
def conversionLogLine (cr : ConversionResult) : String :=
  "  Applied unit conversion: " ++ formatQty cr.originalAmount ++ " " ++
  cr.originalUnit ++ " â†’ " ++ formatQty cr.convertedAmount ++ " " ++ cr.convertedUnit

/-- The contribution of one ingredient to the result lists of
process_recipe_with_units: the first diet in caller-supplied order under
which the ingredient is forbidden decides the branch; the first offered
option of that diet is applied. -/
def processOneIngredient (diets : List String) (ing : RecipeIngredient) :
    List UnitAwareSubstitution × List RecipeIngredient × List String × List String :=
  match diets.find? (fun d => uIsForbidden ing.name d) with
  | none => ([], [ing], [], [])
  | some diet =>
    match uGetSubstitutionOptions ing.name diet with
    | [] => ([], [ing],
        ["No substitution found for " ++ sQuote ++ ing.name ++ sQuote ++
         " on " ++ diet ++ " diet"], [])
    | o :: _ =>
      match applySubstitutionWithUnits ing o.name diet with
      | .error e => ([], [ing],
          ["Failed to substitute " ++ sQuote ++ ing.name ++ sQuote ++ ": " ++ e], [])
      | .ok sub =>
        ([sub], [], [],
         ["Replaced " ++ sQuote ++ ing.name ++ sQuote ++ " (" ++ ing.amount ++
          ") with " ++ sQuote ++ sub.substitutedIngredient ++ sQuote ++ " (" ++
          sub.substitutedAmount ++ ")"] ++
         (if sub.conversionApplied then
            match sub.conversionResult with
            | some cr => [conversionLogLine cr]
            | none => []
          else []))

/-- One step of the ingredient loop of process_recipe_with_units: append the
per-ingredient contributions to the four accumulated lists. -/
def uaStep (diets : List String)
    (acc : List UnitAwareSubstitution × List RecipeIngredient × List String × List String)
    (ing : RecipeIngredient) :
    List UnitAwareSubstitution × List RecipeIngredient × List String × List String :=
  let r := processOneIngredient diets ing
  (acc.1 ++ r.1, acc.2.1 ++ r.2.1, acc.2.2.1 ++ r.2.2.1, acc.2.2.2 ++ r.2.2.2)

/-- UnitAwareSubstitutionEngine.process_recipe_with_units: fold the
per-ingredient contributions in recipe order; success is the absence of
warnings. -/
def processRecipeWithUnits (recipe : List RecipeIngredient) (diets : List String) :
    UnitAwareRecipeResult :=
  let res := recipe.foldl (uaStep diets)
    (([], [], [], []) :
      List UnitAwareSubstitution × List RecipeIngredient × List String × List String)
  ⟨recipe, diets, res.1, res.2.1, res.2.2.1, res.2.2.2, res.2.2.1.length == 0⟩

-- ### Claim theorems

/-- Every knowledge-base key ends in a character other than p, while a
composite key built for the low-fodmap diet always ends in the p of
"low-fodmap"; hence no lookup with that diet can ever hit the table. -/
theorem find_lowfodmap_key_eq_none (a : String) :
    restrictionTable.find? (fun e => e.key == a ++ "_" ++ "low-fodmap") = none := by
  rw [List.find?_eq_none]
  intro e he
  simp only [beq_iff_eq]
  intro hkey
  have h1 : (a ++ "_" ++ "low-fodmap").data.getLast? = some 'p' := by
    have hd : (a ++ "_" ++ "low-fodmap").data =
        (a.data ++ "_".data) ++ "low-fodmap".data := rfl
    rw [hd, List.getLast?_append]
    rfl
  have h2 : ∀ x ∈ restrictionTable, x.key.data.getLast? ≠ some 'p' := by decide
  exact h2 e he (hkey ▸ h1)

/-- C2: for every ingredient string i, the knowledge base's
get_substitution_options(i, "low-fodmap") is empty and
is_forbidden(i, "low-fodmap") is False — at the raw level and through the
canonicalizing unified layer — because the low-fodmap rows are stored under
bare ingredient-name keys while both lookups build the composite key
ingredient_low-fodmap; yet the nine low-fodmap rows all offer substitutions
and their forbidden tags (e.g. "fructans") still reach
get_union_forbidden_tags. -/
theorem low_fodmap_table_unreachable :
    (∀ i : String,
       kbGetSubstitutionOptions i "low-fodmap" = [] ∧
       kbIsForbidden i "low-fodmap" = false ∧
       uGetSubstitutionOptions i "low-fodmap" = [] ∧
       uIsForbidden i "low-fodmap" = false) ∧
    "fructans" ∈ getUnionForbiddenTags ["low-fodmap"] ∧
    (restrictionTable.filter (fun e => e.dietType == "low-fodmap")).length = 9 ∧
    (restrictionTable.filter (fun e => e.dietType == "low-fodmap")).all
      (fun e => !e.substitutionOptions.isEmpty) = true := by
  refine ⟨fun i => ?_, by decide, by decide, by decide⟩
  refine ⟨?_, ?_, ?_, ?_⟩
  · simp only [kbGetSubstitutionOptions, find_lowfodmap_key_eq_none]
  · simp only [kbIsForbidden, find_lowfodmap_key_eq_none]
  · simp only [uGetSubstitutionOptions, kbGetSubstitutionOptions, find_lowfodmap_key_eq_none]
  · simp only [uIsForbidden, kbIsForbidden, find_lowfodmap_key_eq_none]

/-- C3: is_forbidden(i, d) is True exactly when get_substitution_options(i, d)
is non-empty, both for the raw knowledge base and for the canonicalizing
unified layer. -/
theorem is_forbidden_iff_options_nonempty (i d : String) :
    (kbIsForbidden i d = true ↔ kbGetSubstitutionOptions i d ≠ []) ∧
    (uIsForbidden i d = true ↔ uGetSubstitutionOptions i d ≠ []) := by
  constructor
  · unfold kbIsForbidden kbGetSubstitutionOptions
    cases restrictionTable.find? (fun e => e.key == pyLowerStrip i ++ "_" ++ d) with
    | none => simp
    | some e => simp [List.length_pos]
  · unfold uIsForbidden uGetSubstitutionOptions kbIsForbidden kbGetSubstitutionOptions
    cases restrictionTable.find?
        (fun e => e.key == pyLowerStrip (canonicalize i) ++ "_" ++ d) with
    | none => simp
    | some e => simp [List.length_pos]

/-- C4 counterexample: canonicalize is not idempotent on every string.  On
"qq , zz" normalization collapses whitespace before deleting the comma,
leaving the double space "qq  zz"; a second pass collapses that too. -/
theorem canonicalize_not_idempotent_cex :
    canonicalize (canonicalize "qq , zz") ≠ canonicalize "qq , zz" := by decide

/-- C4 amended: canonicalize is idempotent on every input whose result is one
of the table's canonical names — in particular on every alias-resolved
ingredient — though not on arbitrary strings. -/
theorem canonicalize_idempotent_on_canonical_results (s : String)
    (h : canonicalize s ∈ canonicalNames) :
    canonicalize (canonicalize s) = canonicalize s := by
  have hall : ∀ c ∈ canonicalNames, canonicalize c = c := by decide
  exact hall _ h

/-- Witness for the amended C4 at the sampled input "AP flour". -/
theorem canonicalize_idempotent_on_canonical_results_witness :
    canonicalize "AP flour" ∈ canonicalNames ∧
    canonicalize (canonicalize "AP flour") = canonicalize "AP flour" :=
  ⟨by decide, canonicalize_idempotent_on_canonical_results "AP flour" (by decide)⟩

/-- C8 counterexample: with the table's base factors, converting 1 tbsp to
tsp yields 14.7868 / 4.92892 = 3 + 1/123223, which is close to but not
exactly 3. -/
theorem convert_tbsp_tsp_not_exactly_three :
    (converterConvert 1 "tbsp" "tsp" "").convertedAmount ≠ 3 := by
  have h : (converterConvert 1 "tbsp" "tsp" "").convertedAmount =
      1 * (14.7868 : Rat) / 4.92892 := rfl
  rw [h]; norm_num

/-- C8 amended: cup to ml gives exactly 236.588 (within any 0.01 tolerance);
lb to oz gives exactly 16; tbsp to tsp gives 3 + 1/123223 — within 0.01 of 3
but not exactly 3, because 3 times 4.92892 is 14.78676, not the table's
14.7868. -/
theorem convert_base_factor_examples :
    |(converterConvert 1 "cup" "ml" "").convertedAmount - 236.588| < 1/100 ∧
    (converterConvert 1 "lb" "oz" "").convertedAmount = 16 ∧
    (converterConvert 1 "tbsp" "tsp" "").convertedAmount = 3 + 1/123223 ∧
    |(converterConvert 1 "tbsp" "tsp" "").convertedAmount - 3| < 1/100 := by
  have h1 : (converterConvert 1 "cup" "ml" "").convertedAmount =
      1 * (236.588 : Rat) / 1 := rfl
  have h2 : (converterConvert 1 "lb" "oz" "").convertedAmount =
      1 * (453.592 : Rat) / 28.3495 := rfl
  have h3 : (converterConvert 1 "tbsp" "tsp" "").convertedAmount =
      1 * (14.7868 : Rat) / 4.92892 := rfl
  refine ⟨?_, ?_, ?_, ?_⟩
  · rw [h1]; norm_num
  · rw [h2]; norm_num
  · rw [h3]; norm_num
  · rw [h3, show (1 : Rat) * 14.7868 / 4.92892 - 3 = 1/123223 by norm_num,
       abs_of_pos (by norm_num)]
    norm_num

/-- C9 counterexample: parse_amount on a quantity with no unit does not
return the quantity with an empty unit string — "2" yields (1.0, "2"),
the whole cleaned text taken as the unit with quantity 1. -/
theorem parse_amount_no_unit_cex : parseAmount "2" ≠ ((2 : Rat), "") := by decide

/-- C9 amended: parse_amount converts literal fractions and mixed numbers to
decimals and extracts a leading number followed by a word token as the unit
("2 1/4 cups" gives 2.25 cups, "1/2 cup" gives 0.5 cup); but when the
cleaned text has no number-whitespace-word prefix, it returns quantity 1.0
with the whole cleaned text as the unit (the source's "assume it's just a
unit" fallback), not the contained quantity with an empty unit; only the
empty string yields (0.0, ""). -/
theorem parse_amount_spec :
    (parseAmount "2 1/4 cups").1 = 9/4 ∧ (parseAmount "2 1/4 cups").2 = "cups" ∧
    (parseAmount "1/2 cup").1 = 1/2 ∧ (parseAmount "1/2 cup").2 = "cup" ∧
    (parseAmount "1 cup").1 = 1 ∧ (parseAmount "1 cup").2 = "cup" ∧
    parseAmount "" = (0, "") ∧
    (∀ s : String, s.isEmpty = false →
       matchNumUnit (convertFractions (pyLower (pyStrip s.data))) = none →
       parseAmount s = (1, String.mk (convertFractions (pyLower (pyStrip s.data))))) := by
  refine ⟨?_, by rfl, ?_, by rfl, ?_, by rfl, by rfl, ?_⟩
  · have h : (parseAmount "2 1/4 cups").1 = ratOfDecimal ['2'] (some ['2', '5']) := rfl
    have hn1 : natOfDigits ['2'] = 2 := rfl
    have hn2 : natOfDigits ['2', '5'] = 25 := rfl
    rw [h]; simp only [ratOfDecimal, hn1, hn2]; norm_num
  · have h : (parseAmount "1/2 cup").1 = ratOfDecimal ['0'] (some ['5']) := rfl
    have hn1 : natOfDigits ['0'] = 0 := rfl
    have hn2 : natOfDigits ['5'] = 5 := rfl
    rw [h]; simp only [ratOfDecimal, hn1, hn2]; norm_num
  · have h : (parseAmount "1 cup").1 = ratOfDecimal ['1'] none := rfl
    have hn1 : natOfDigits ['1'] = 1 := rfl
    rw [h]; simp only [ratOfDecimal, hn1]; norm_num
  · intro s hs hm
    unfold parseAmount
    rw [hs]
    rw [if_neg (by simp)]
    simp only [hm]

/-- Witness for the amended C9 fallback clause at the input "2". -/
theorem parse_amount_spec_witness :
    ("2" : String).isEmpty = false ∧
    matchNumUnit (convertFractions (pyLower (pyStrip ("2" : String).data))) = none ∧
    parseAmount "2" = (1, String.mk (convertFractions (pyLower (pyStrip ("2" : String).data)))) :=
  ⟨by decide, by decide, parse_amount_spec.2.2.2.2.2.2.2 "2" (by decide) (by decide)⟩

/-- C5: detect_diet_conflicts, characterized over all inputs: with fd the
active diets that forbid the ingredient (in caller order) — two or more
forbidding diets produce exactly one conflict, an error-severity
no_common_substitution when no common substitution exists and otherwise a
warning-severity multiple_diet_restriction whose suggested resolution names
the first common substitution; exactly one forbidding diet produces exactly
one info-severity single_diet_restriction record; none produces no
conflict. -/
theorem detect_conflicts_cases (ingredient : String) (diets : List String) :
    detectDietConflicts ingredient diets =
      (if 2 ≤ (diets.filter (fun d => uIsForbidden ingredient d)).length then
        match findCommonSubstitutions ingredient
            (diets.filter (fun d => uIsForbidden ingredient d)) with
        | [] => [⟨ingredient, diets.filter (fun d => uIsForbidden ingredient d),
                  "no_common_substitution",
                  "No single substitution works for all diets: " ++
                    commaJoin (diets.filter (fun d => uIsForbidden ingredient d)),
                  "error"⟩]
        | c :: _ => [⟨ingredient, diets.filter (fun d => uIsForbidden ingredient d),
                  "multiple_diet_restriction",
                  "Use common substitution: " ++ c.name, "warning"⟩]
      else if (diets.filter (fun d => uIsForbidden ingredient d)).length = 1 then
        [⟨ingredient, diets.filter (fun d => uIsForbidden ingredient d),
          "single_diet_restriction",
          "Ingredient forbidden in " ++
            (diets.filter (fun d => uIsForbidden ingredient d)).headD "" ++ " diet",
          "info"⟩]
      else []) := by
  unfold detectDietConflicts
  by_cases h : 1 < (diets.filter (fun d => uIsForbidden ingredient d)).length
  · rw [if_pos h, if_pos (show 2 ≤ _ from h)]
  · rw [if_neg h, if_neg (show ¬ 2 ≤ _ from h)]
    by_cases h1 : (diets.filter (fun d => uIsForbidden ingredient d)).length = 1
    · rw [if_pos (show (_ == 1) = true by simp [h1]), if_pos h1]
    · rw [if_neg (show ¬(_ == 1) = true by simp [h1]), if_neg h1]

/-- A string append with a non-empty left part is non-empty. -/
theorem str_append_ne_empty (a b : String) (ha : a ≠ "") : a ++ b ≠ "" := by
  intro h
  apply ha
  apply String.ext
  have hd : a.data ++ b.data = [] := congrArg String.data h
  exact (List.append_eq_nil.mp hd).1

/-- A unit whose type is known is present in the units dict with that type. -/
theorem unitTable_find_of_known (u : String) (h : getUnitType u ≠ PyUnitType.unknown) :
    ∃ obj, pyDictFind (pyLowerStrip u) unitTable = some obj ∧
      obj.unitType = getUnitType u := by
  unfold getUnitType at h ⊢
  cases hf : pyDictFind (pyLowerStrip u) unitTable with
  | none => rw [hf] at h; exact absurd rfl h
  | some obj => exact ⟨obj, rfl, rfl⟩

/-- C7: whenever convert cannot perform a conversion — an unknown from- or
to-unit, a dimension pair other than mass and volume, or a mass-volume pair
whose ingredient has no density entry (all under distinct unit names, since
identical names short-circuit to the identity conversion) — it returns a
result with success false and a non-empty error message, as data; and the
conversion block of apply_substitution_with_units then keeps the original
quantity and unit with conversion_applied false. -/
theorem convert_failure_is_data_and_fallback :
    (∀ (amount : Rat) (fromU toU ingredient : String),
       pyLowerStrip fromU ≠ pyLowerStrip toU →
       (getUnitType fromU = PyUnitType.unknown ∨ getUnitType toU = PyUnitType.unknown ∨
        (getUnitType fromU ≠ getUnitType toU ∧
          ¬((getUnitType fromU = PyUnitType.mass ∧ getUnitType toU = PyUnitType.volume) ∨
            (getUnitType fromU = PyUnitType.volume ∧ getUnitType toU = PyUnitType.mass))) ∨
        (((getUnitType fromU = PyUnitType.mass ∧ getUnitType toU = PyUnitType.volume) ∨
          (getUnitType fromU = PyUnitType.volume ∧ getUnitType toU = PyUnitType.mass)) ∧
         pyDictFind (pyLowerStr ingredient) densityTable = none)) →
       (converterConvert amount fromU toU ingredient).success = false ∧
       (converterConvert amount fromU toU ingredient).errorMessage ≠ "") ∧
    (∀ (q : Rat) (u t n : String), u ≠ t →
       (converterConvert q u t n).success = false →
       applyConversionStep q u t n = (q, u, false, some (converterConvert q u t n))) := by
  constructor
  · intro amount fromU toU ingredient hne hcase
    unfold converterConvert
    rw [if_neg (by simp only [beq_iff_eq]; exact hne)]
    by_cases hu : getUnitType fromU = PyUnitType.unknown ∨ getUnitType toU = PyUnitType.unknown
    · rw [if_pos (by rcases hu with hu | hu <;> simp [hu])]
      exact ⟨rfl, show ("Unknown unit types" : String) ≠ "" by decide⟩
    · push_neg at hu
      rw [if_neg (by simp only [Bool.or_eq_true, beq_iff_eq]; push_neg; exact hu)]
      rcases hcase with h1 | h2 | ⟨hneq, hnpair⟩ | ⟨hpair, hdens⟩
      · exact absurd h1 hu.1
      · exact absurd h2 hu.2
      · rw [if_neg (by simp only [beq_iff_eq]; exact hneq)]
        rw [if_neg (by
          simp only [Bool.or_eq_true, Bool.and_eq_true, beq_iff_eq]
          exact hnpair)]
        refine ⟨rfl, ?_⟩
        exact str_append_ne_empty _ _
          (str_append_ne_empty _ _ (str_append_ne_empty _ _ (by decide)))
      · have hft := unitTable_find_of_known fromU (by
          rcases hpair with ⟨hm, _⟩ | ⟨hm, _⟩ <;> simp [hm])
        have htt := unitTable_find_of_known toU (by
          rcases hpair with ⟨_, hv⟩ | ⟨_, hv⟩ <;> simp [hv])
        obtain ⟨fObj, hf, _⟩ := hft
        obtain ⟨tObj, ht, _⟩ := htt
        have hpairconds :
            ((getUnitType fromU == PyUnitType.mass && getUnitType toU == PyUnitType.volume) ||
             (getUnitType fromU == PyUnitType.volume && getUnitType toU == PyUnitType.mass)) = true := by
          rcases hpair with ⟨hm, hv⟩ | ⟨hm, hv⟩ <;> simp [hm, hv]
        have hneqt : ¬(getUnitType fromU == getUnitType toU) = true := by
          rcases hpair with ⟨hm, hv⟩ | ⟨hm, hv⟩ <;> simp [hm, hv]
        rw [if_neg hneqt, if_pos hpairconds]
        unfold convertCrossDimension
        rw [hf, ht]
        simp only [hdens.symm]
        rw [hdens]
        exact ⟨rfl, str_append_ne_empty _ _ (by decide)⟩
  · intro q u t n hne hfail
    unfold applyConversionStep
    rw [if_pos hne]
    simp only [hfail, Bool.false_eq_true, if_false]

/-- Witness for C7: a mass-volume request with no density entry fails as
data with a message, and an unknown-unit failure makes the conversion block
keep the original quantity and unit. -/
theorem convert_failure_witness :
    ((converterConvert 1 "cup" "g" "").success = false ∧
     (converterConvert 1 "cup" "g" "").errorMessage ≠ "") ∧
    applyConversionStep 3 "large" "tsp" "flax egg" =
      (3, "large", false, some (converterConvert 3 "large" "tsp" "flax egg")) :=
  ⟨convert_failure_is_data_and_fallback.1 1 "cup" "g" "" (by decide)
     (Or.inr (Or.inr (Or.inr ⟨Or.inr ⟨by decide, by decide⟩, by decide⟩))),
   convert_failure_is_data_and_fallback.2 3 "large" "tsp" "flax egg" (by decide)
     (by decide)⟩

/-- The substitutions component of the ingredient fold splits as the
concatenation of per-ingredient contributions. -/
theorem uaFold_subs (diets : List String) :
    ∀ (l : List RecipeIngredient)
      (acc : List UnitAwareSubstitution × List RecipeIngredient × List String × List String),
      (l.foldl (uaStep diets) acc).1 =
        acc.1 ++ l.flatMap (fun i => (processOneIngredient diets i).1) := by
  intro l
  induction l with
  | nil => intro acc; simp
  | cons x xs ih =>
    intro acc
    rw [List.foldl_cons, ih]
    simp [uaStep]

/-- C10: in the orchestrator's unit-aware pass, an ingredient forbidden under
at least one caller-supplied diet is substituted under the first such diet
in the caller-supplied order (find? order, not the reconciler's priority
order), using that diet's first listed option: it contributes exactly one
substitution record, whose substituted ingredient is that first option's
name, independently of the surrounding recipe. -/
theorem unit_aware_first_diet_first_option
    (pre post : List RecipeIngredient) (ing : RecipeIngredient) (diets : List String)
    (d : String) (o : SubstitutionOption) (os : List SubstitutionOption)
    (sub : UnitAwareSubstitution)
    (hd : diets.find? (fun x => uIsForbidden ing.name x) = some d)
    (hopts : uGetSubstitutionOptions ing.name d = o :: os)
    (happly : applySubstitutionWithUnits ing o.name d = Except.ok sub) :
    (processRecipeWithUnits (pre ++ ing :: post) diets).substitutions =
      (processRecipeWithUnits pre diets).substitutions ++
        sub :: (processRecipeWithUnits post diets).substitutions ∧
    sub.substitutedIngredient = o.name := by
  constructor
  · have hone : (processOneIngredient diets ing).1 = [sub] := by
      simp only [processOneIngredient, hd, hopts, happly]
    simp only [processRecipeWithUnits]
    rw [uaFold_subs, uaFold_subs, uaFold_subs]
    simp [List.flatMap_append, hone]
  · unfold applySubstitutionWithUnits at happly
    dsimp only [] at happly
    split at happly
    · cases happly
    · injection happly with h
      rw [← h]

/-- Witness for C10: "milk" under caller order [dairy-free, vegan] is
substituted under dairy-free (the first forbidding diet in caller order,
though vegan outranks it in the reconciler's priority order) using that
diet's first option "oat milk". -/
theorem unit_aware_first_diet_witness :
    (processRecipeWithUnits
        ([] ++ (⟨"milk", "1 cup", "cup", 1, ""⟩ : RecipeIngredient) :: [])
        ["dairy-free", "vegan"]).substitutions =
      (processRecipeWithUnits [] ["dairy-free", "vegan"]).substitutions ++
        (⟨"milk", "1 cup", "cup", 1, "oat milk", "1 cup", "cup", 1, false,
          "1:1 substitution", "1 cup ‚âà 240ml", 1, none⟩ : UnitAwareSubstitution) ::
          (processRecipeWithUnits [] ["dairy-free", "vegan"]).substitutions ∧
    (⟨"milk", "1 cup", "cup", 1, "oat milk", "1 cup", "cup", 1, false,
      "1:1 substitution", "1 cup ‚âà 240ml", 1, none⟩ :
        UnitAwareSubstitution).substitutedIngredient = "oat milk" :=
  unit_aware_first_diet_first_option [] [] ⟨"milk", "1 cup", "cup", 1, ""⟩
    ["dairy-free", "vegan"] "dairy-free"
    ⟨"oat milk", "1:1 substitution", "1 cup ‚âà 240ml", 1⟩
    [⟨"almond milk", "1:1 substitution", "1 cup ‚âà 240ml", 1⟩,
     ⟨"coconut milk", "1:1 substitution", "1 cup ‚âà 240ml", 1⟩,
     ⟨"soy milk", "1:1 substitution", "1 cup ‚âà 240ml", 1⟩]
    ⟨"milk", "1 cup", "cup", 1, "oat milk", "1 cup", "cup", 1, false,
     "1:1 substitution", "1 cup ‚âà 240ml", 1, none⟩
    (by rfl) (by rfl) (by rfl)

/-- C1 counterexample: apply_composite_diets on the recipe
[eggs, milk, flour] with active diets [vegan, gluten-free] returns
success = false, not true: the vegan substitution "flax egg" canonicalizes
(by fuzzy substring match on the alias "egg") to "eggs", which contains the
vegan forbidden tag "eggs", so validate_final_compliance fails. -/
theorem composite_scenario_success_false :
    (applyCompositeDiets c1Recipe ["vegan", "gluten-free"]).success = false := by rfl

/-- C1 amended: in the spec scenario every originally-forbidden ingredient
(eggs, milk, flour — exactly the ones some active diet forbids) is
substituted exactly once (to flax egg, oat milk, almond flour), no
error-severity conflicts or warnings arise, but success = false rather than
true: exactly one final ingredient, "flax egg", has a canonical name
("eggs") containing a union forbidden tag ("eggs") as a substring. -/
theorem composite_scenario_actual :
    (c1Recipe.filter (fun i => ["vegan", "gluten-free"].any
        (fun d => uIsForbidden i.name d))).map (·.name) = ["eggs", "milk", "flour"] ∧
    (allChangeRecords (applyCompositeDiets c1Recipe ["vegan", "gluten-free"])).map
        (·.original) = ["eggs", "milk", "flour"] ∧
    (applyCompositeDiets c1Recipe ["vegan", "gluten-free"]).finalIngredients.map
        (·.name) = ["flax egg", "oat milk", "almond flour"] ∧
    (applyCompositeDiets c1Recipe ["vegan", "gluten-free"]).success = false ∧
    ((applyCompositeDiets c1Recipe ["vegan", "gluten-free"]).finalIngredients.filter
        (fun i => ingredientTagHit (getUnionForbiddenTags ["vegan", "gluten-free"]) i)).map
        (·.name) = ["flax egg"] ∧
    canonicalize "flax egg" = "eggs" ∧
    "eggs" ∈ getUnionForbiddenTags ["vegan", "gluten-free"] ∧
    (applyCompositeDiets c1Recipe ["vegan", "gluten-free"]).conflicts.map (·.severity) =
      ["info", "info"] ∧
    (applyCompositeDiets c1Recipe ["vegan", "gluten-free"]).warnings = [] := by
  exact ⟨by rfl, by rfl, by rfl, by rfl, by rfl, by rfl, by decide, by rfl, by rfl⟩

/-- The original-ingredient names recorded in the substitution history of an
engine accumulator. -/
def histNames (acc : EngineAcc) : List String :=
  (acc.history.flatMap (·.changes)).map (·.original)

/-- Shape of one inner-loop step of apply_composite_diets: either the change
and substituted-name lists are untouched, or exactly one change record is
appended for an ingredient whose name was not yet in the substituted set,
and that name is appended to the set. -/
theorem passStep_shape (sortedDiets : List String) (diet : String) (st : PassState) (i : Nat) :
    ((passStep sortedDiets diet st i).changes = st.changes ∧
     (passStep sortedDiets diet st i).subst = st.subst) ∨
    (∃ ing r, st.ings.get? i = some ing ∧
       ing.name ∉ st.subst ∧
       r.original = ing.name ∧
       (passStep sortedDiets diet st i).changes = st.changes ++ [r] ∧
       (passStep sortedDiets diet st i).subst = st.subst ++ [ing.name]) := by
  unfold passStep
  split
  · exact Or.inl ⟨rfl, rfl⟩
  · rename_i ing hing
    split
    · exact Or.inl ⟨rfl, rfl⟩
    · rename_i hc
      split
      · split
        · exact Or.inl ⟨rfl, rfl⟩
        · rename_i o os hopts
          refine Or.inr ⟨ing, _, hing, ?_, rfl, rfl, rfl⟩
          intro hmem
          exact hc (by simpa [List.contains] using (List.elem_iff.mpr hmem))
      · exact Or.inl ⟨rfl, rfl⟩

/-- The two-part loop invariant of C6 carried through one inner-loop step:
the recorded original names (an arbitrary prefix ns plus the running pass's
changes) stay pairwise distinct, and all of them are in the substituted
set. -/
theorem passStep_inv (sortedDiets : List String) (diet : String) (ns : List String)
    (st : PassState) (i : Nat)
    (h1 : (ns ++ st.changes.map (·.original)).Nodup)
    (h2 : ∀ x ∈ ns ++ st.changes.map (·.original), x ∈ st.subst) :
    (ns ++ (passStep sortedDiets diet st i).changes.map (·.original)).Nodup ∧
    ∀ x ∈ ns ++ (passStep sortedDiets diet st i).changes.map (·.original),
      x ∈ (passStep sortedDiets diet st i).subst := by
  rcases passStep_shape sortedDiets diet st i with ⟨hch, hsb⟩ | ⟨ing, r, _, hc, horig, hch, hsb⟩
  · rw [hch, hsb]; exact ⟨h1, h2⟩
  · rw [hch, hsb]
    have hsplit : ns ++ (st.changes ++ [r]).map (·.original) =
        (ns ++ st.changes.map (·.original)) ++ [r.original] := by simp
    constructor
    · rw [hsplit]
      rw [List.nodup_append]
      refine ⟨h1, List.nodup_singleton _, ?_⟩
      intro x hx hx1
      have hxr : x = r.original := by simpa using hx1
      exact hc (horig ▸ hxr ▸ h2 x hx)
    · intro x hx
      rw [hsplit] at hx
      rcases List.mem_append.mp hx with hx | hx
      · exact List.mem_append.mpr (Or.inl (h2 x hx))
      · have : x = ing.name := by simpa [horig] using hx
        exact List.mem_append.mpr (Or.inr (by simp [this]))

/-- The invariant carried through a whole inner loop (any index list). -/
theorem foldPass_inv (sortedDiets : List String) (diet : String) (ns : List String) :
    ∀ (idxs : List Nat) (st : PassState),
      (ns ++ st.changes.map (·.original)).Nodup →
      (∀ x ∈ ns ++ st.changes.map (·.original), x ∈ st.subst) →
      (ns ++ (idxs.foldl (passStep sortedDiets diet) st).changes.map (·.original)).Nodup ∧
      ∀ x ∈ ns ++ (idxs.foldl (passStep sortedDiets diet) st).changes.map (·.original),
        x ∈ (idxs.foldl (passStep sortedDiets diet) st).subst := by
  intro idxs
  induction idxs with
  | nil => intro st h1 h2; exact ⟨h1, h2⟩
  | cons i rest ih =>
    intro st h1 h2
    rw [List.foldl_cons]
    obtain ⟨h1s, h2s⟩ := passStep_inv sortedDiets diet ns st i h1 h2
    exact ih _ h1s h2s

/-- The invariant carried through one whole diet pass of
apply_composite_diets. -/
theorem applyDiet_inv (sortedDiets : List String) (acc : EngineAcc) (diet : String)
    (h1 : (histNames acc).Nodup)
    (h2 : ∀ x ∈ histNames acc, x ∈ acc.subst) :
    (histNames (applyDiet sortedDiets acc diet)).Nodup ∧
    ∀ x ∈ histNames (applyDiet sortedDiets acc diet),
      x ∈ (applyDiet sortedDiets acc diet).subst := by
  obtain ⟨H1, H2⟩ := foldPass_inv sortedDiets diet (histNames acc)
    (List.range acc.ings.length) ⟨acc.ings, acc.subst, [], acc.warns, acc.log⟩
    (by simpa using h1) (by simpa using h2)
  have hs : (applyDiet sortedDiets acc diet).subst =
      ((List.range acc.ings.length).foldl (passStep sortedDiets diet)
        ⟨acc.ings, acc.subst, [], acc.warns, acc.log⟩).subst := rfl
  have hh : histNames (applyDiet sortedDiets acc diet) =
      histNames acc ++ ((List.range acc.ings.length).foldl (passStep sortedDiets diet)
        ⟨acc.ings, acc.subst, [], acc.warns, acc.log⟩).changes.map (·.original) := by
    unfold histNames applyDiet
    dsimp only []
    split
    · rename_i hemp
      rw [List.isEmpty_iff.mp hemp]
      simp [histNames]
    · simp [histNames, List.flatMap_append]
  rw [hh, hs]
  exact ⟨H1, H2⟩

/-- The invariant carried through the fold over all diet passes. -/
theorem engineFold_inv (sorted : List String) :
    ∀ (ds : List String) (acc : EngineAcc),
      (histNames acc).Nodup →
      (∀ x ∈ histNames acc, x ∈ acc.subst) →
      (histNames (ds.foldl (applyDiet sorted) acc)).Nodup ∧
      ∀ x ∈ histNames (ds.foldl (applyDiet sorted) acc),
        x ∈ (ds.foldl (applyDiet sorted) acc).subst := by
  intro ds
  induction ds with
  | nil => intro acc h1 h2; exact ⟨h1, h2⟩
  | cons d rest ih =>
    intro acc h1 h2
    rw [List.foldl_cons]
    obtain ⟨h1s, h2s⟩ := applyDiet_inv sorted acc d h1 h2
    exact ih _ h1s h2s

/-- C6: during one apply_composite_diets call, each original ingredient name
is substituted at most once across all diet passes: the recorded original
names are pairwise distinct, so any name occurs at most once among the
change records, no matter how many active diets forbid it. -/
theorem composite_substitutes_each_original_at_most_once
    (recipe : List RecipeIngredient) (diets : List String) (nm : String) :
    ((allChangeRecords (applyCompositeDiets recipe diets)).map (·.original)).count nm ≤ 1 := by
  have h := (engineFold_inv (sortDiets diets) (sortDiets diets)
    ⟨recipe, [], [], [], []⟩ (by simp [histNames]) (by simp [histNames])).1
  have heq : (allChangeRecords (applyCompositeDiets recipe diets)).map (·.original) =
      histNames ((sortDiets diets).foldl (applyDiet (sortDiets diets))
        ⟨recipe, [], [], [], []⟩) := by
    simp only [allChangeRecords, applyCompositeDiets, histNames]
  rw [heq]
  exact List.nodup_iff_count_le_one.mp h nm
